import Mathlib

/-!
Verification of the Critic extension (`src/extensions/critic/index.ts`)
of the dot-pi repository.

The development shallowly embeds the parts of the extension that the
specification's claims are about:

* the verdict parser embedded in `runCritic` / `runCriticSync`
  (the two regexes over the critique text, the `NEEDS_WORK` fallback);
* the review process runners `runCritic` / `runCriticSync`, as total
  functions from an abstract description of the subprocess behaviour
  (stdout JSON lines, exit code, timeout/abort flags, spawn errors) to a
  `CriticResult`;
* `formatRecentContext` (the context curator);
* `triggerCritic` together with the runtime state bookkeeping and the
  `before_agent_start` / `context` event handlers, as a step function on
  `CriticRuntimeState` that also returns the list of emitted effects
  (reviewer invocation, display message, user messages).

JavaScript-specific behaviour is embedded explicitly: string truthiness
(`""` is falsy) via `jsTruthyS`, `Array.prototype.slice` with negative
start via `jsSliceLast`, `String.prototype.startsWith` via
`startsWithJs`, and JS whitespace (for `\s` and `trim`) via `jsWs`.
Wall-clock durations, token-usage metadata and UI rendering carry no
claim and are omitted from the embedded records.
-/

namespace Critic

/-- JS whitespace for `\s` in the verdict regexes and for `String.prototype.trim`
(space, tab, newline, carriage return, vertical tab, form feed; the
exotic Unicode space characters are not modelled). -/
def jsWs (c : Char) : Bool :=
  c == ' ' || c == '\t' || c == '\n' || c == '\r' || c == '\x0b' || c == '\x0c'

/-- JS truthiness of an optional string field: `undefined` and `""` are falsy. -/
def jsTruthyS : Option String → Bool
  | none => false
  | some s => !(s == "")

/-- `String.prototype.startsWith` (code-unit prefix; on well-formed strings,
character-list prefix). -/
def startsWithJs (s p : String) : Bool :=
  p.data.isPrefixOf s.data

/-- `String.prototype.trim` on a character list (with `jsWs` as the
whitespace class). -/
def trimChars (s : List Char) : List Char :=
  ((s.dropWhile jsWs).reverse.dropWhile jsWs).reverse

/-- `String.prototype.trim`. -/
def strTrimJs (s : String) : String :=
  String.mk (trimChars s.data)

/-! ## Verdict parser

The source parses the verdict with
`critique.match(/<critic_verdict>\s*status:\s*(APPROVED|NEEDS_WORK|BLOCKED)\s*<\/critic_verdict>/i)`
and, when it matched, strips the block with
`critique.replace(/<critic_verdict>[\s\S]*<\/critic_verdict>/i, "").trim()`.
Both regexes are embedded directly: case-insensitive literal matching,
leftmost match, and for the greedy `[\s\S]*` the last closing tag. -/

/-- Case-insensitive character comparison, as the `i` regex flag performs
on the ASCII pattern letters involved here. -/
def charEqCI (a b : Char) : Bool :=
  a.toLower == b.toLower

/-- Strip a case-insensitive literal pattern from the front of the input,
returning the remainder on success. -/
def stripCI : List Char → List Char → Option (List Char)
  | [], s => some s
  | _ :: _, [] => none
  | p :: ps, c :: cs => if charEqCI p c then stripCI ps cs else none

/-- Greedy `\s*`: drop the maximal run of whitespace (the regex continues
with a non-whitespace literal in every use, so the greedy match is exact). -/
def skipWs (s : List Char) : List Char :=
  s.dropWhile jsWs

def openTag : List Char := "<critic_verdict>".data

def closeTag : List Char := "</critic_verdict>".data

/-- The alternation `(APPROVED|NEEDS_WORK|BLOCKED)` under the `i` flag.
The source applies `.toUpperCase()` to the captured group; since each
keyword is pure ASCII letters and `_`, upper-casing any case-insensitive
match yields the canonical keyword, which is returned directly. -/
def matchKeyword (s : List Char) : Option (String × List Char) :=
  match stripCI "APPROVED".data s with
  | some r => some ("APPROVED", r)
  | none =>
    match stripCI "NEEDS_WORK".data s with
    | some r => some ("NEEDS_WORK", r)
    | none =>
      match stripCI "BLOCKED".data s with
      | some r => some ("BLOCKED", r)
      | none => none

/-- Match the capture regex at the start of the input, returning the
upper-cased captured status keyword. -/
def matchVerdictAt (s : List Char) : Option String :=
  match stripCI openTag s with
  | none => none
  | some r1 =>
    match stripCI "status:".data (skipWs r1) with
    | none => none
    | some r2 =>
      match matchKeyword (skipWs r2) with
      | none => none
      | some (kw, r3) =>
        match stripCI closeTag (skipWs r3) with
        | none => none
        | some _ => some kw

/-- Leftmost match of the capture regex over the whole input
(`String.prototype.match` without the `g` flag). -/
def findVerdict : List Char → Option String
  | [] => none
  | c :: cs =>
    match matchVerdictAt (c :: cs) with
    | some kw => some kw
    | none => findVerdict cs

/-- Whether the verdict marker regex matches anywhere in the critique. -/
def hasVerdictMarker (s : String) : Bool :=
  (findVerdict s.data).isSome

/-- The suffix following the final case-insensitive occurrence of
`</critic_verdict>` (the greedy `[\s\S]*` backtracks to the last close). -/
def afterLastClose : List Char → Option (List Char)
  | [] => none
  | c :: cs =>
    match afterLastClose cs with
    | some r => some r
    | none => stripCI closeTag (c :: cs)

/-- `critique.replace(/<critic_verdict>[\s\S]*<\/critic_verdict>/i, "")`:
delete from the first opening tag that has a closing tag after it,
through the last closing tag of the string. -/
def removeVerdictBlock : List Char → List Char
  | [] => []
  | c :: cs =>
    match stripCI openTag (c :: cs) with
    | some rest =>
      match afterLastClose rest with
      | some suffix => suffix
      | none => c :: removeVerdictBlock cs
    | none => c :: removeVerdictBlock cs

/-- Result of verdict extraction: the status string, the approval flag and
the critique with the verdict block stripped. -/
structure VerdictResult where
  status : String
  approved : Bool
  critique : String
  deriving DecidableEq, Repr

/-- Verdict parsing as performed identically in `runCritic` and
`runCriticSync`: on a match, the status is the upper-cased capture, the
approval flag compares it with `"APPROVED"`, and the block is removed and
the result trimmed; with no match, the status defaults to `NEEDS_WORK`,
approval to `false`, and the critique is left untouched. -/
def parseVerdict (critique : String) : VerdictResult :=
  match findVerdict critique.data with
  | some kw =>
    { status := kw
      approved := kw == "APPROVED"
      critique := String.mk (trimChars (removeVerdictBlock critique.data)) }
  | none =>
    { status := "NEEDS_WORK", approved := false, critique := critique }

/-! ## Data model -/

/-- `CriticState.triggerMode`. -/
inductive TriggerMode where
  | turn_end
  | tool_result
  | agent_end
  | visual
  deriving DecidableEq, Repr

/-- `CriticState.contextMode`. -/
inductive ContextMode where
  | full
  | messages
  | results_only
  deriving DecidableEq, Repr

/-- The persisted configuration (`CriticState` in the source). -/
structure CriticState where
  enabled : Bool
  model : Option String
  systemPrompt : String
  triggerMode : TriggerMode
  triggerTools : List String
  timeoutMs : Nat
  debug : Bool
  maxReviewsPerPrompt : Nat
  contextMode : ContextMode
  deriving DecidableEq, Repr

/-- The per-request runtime state (`CriticRuntimeState` in the source).
The tri-state `lastVerdictApproved : boolean | null` is an `Option Bool`. -/
structure CriticRuntimeState where
  reviewsThisPrompt : Nat
  lastUserPromptTime : Nat
  isProcessingCritic : Bool
  lastVerdictApproved : Option Bool
  deriving DecidableEq, Repr

/-- One reviewer invocation's outcome (`CriticResult` in the source).
The optional `status`, `error` and `timedOut` fields are embedded as
`Option String`, `Option String` and `Bool` (`undefined` behaves as
`false` at every use of `timedOut`); `model`, `usage` and `durationMs`
are metadata no claim concerns and are omitted. -/
structure CriticResult where
  critique : String
  approved : Bool
  status : Option String
  error : Option String
  timedOut : Bool
  deriving DecidableEq, Repr

/-! ## Conversation entries and the context curator (`formatRecentContext`) -/

/-- A content block of a message (`text`, `thinking`, `toolCall`, or any
other block type, which the curator ignores). -/
inductive ContentBlock where
  | text (text : String)
  | thinking (thinking : String)
  | toolCall (name : String) (argsJson : String)
  | otherBlock
  deriving DecidableEq, Repr

/-- A conversation entry as `formatRecentContext` consumes it. A user
message's `content` is either a plain string or a block list; a tool
result carries an optional `toolName` and optional `details.diff`.
Messages with any other role produce no output and are `otherRole`. -/
inductive AgentMessage where
  | user (content : Sum String (List ContentBlock))
  | assistant (content : List ContentBlock)
  | toolResult (toolName : Option String) (content : List ContentBlock) (diff : Option String)
  | otherRole
  deriving DecidableEq, Repr

/-- `getTextContent`: the text blocks joined with newlines. -/
def textOfBlocks (blocks : List ContentBlock) : String :=
  String.intercalate "\n" (blocks.filterMap fun b =>
    match b with
    | .text t => some t
    | _ => none)

/-- `Array.prototype.slice(-k)` (for `k = 0`, JS `-0 === 0` selects the
whole array). -/
def jsSliceLast (k : Nat) (l : List AgentMessage) : List AgentMessage :=
  if k == 0 then l else l.drop (l.length - k)

/-- The parts contributed by a single conversation entry, in source order:
thinking lines (only in `full` mode), tool-call summaries, assistant text
(when non-empty); for a tool result, the full diff for an `edit` result
with a truthy diff, else a 500-character preview. -/
def formatEntry (contextMode : ContextMode) (msg : AgentMessage) : List String :=
  match msg with
  | .user c =>
    let content :=
      match c with
      | .inl s => s
      | .inr blocks => textOfBlocks blocks
    ["USER: " ++ content]
  | .assistant content =>
    let thinkingParts :=
      if contextMode == ContextMode.full then
        content.filterMap fun b =>
          match b with
          | .thinking t => some ("THINKING: " ++ t)
          | _ => none
      else []
    let text := textOfBlocks content
    let toolCallParts := content.filterMap fun b =>
      match b with
      | .toolCall name args => some ("TOOL CALL: " ++ name ++ "(" ++ args.take 200 ++ "...)")
      | _ => none
    let textParts := if text == "" then [] else ["ASSISTANT: " ++ text]
    thinkingParts ++ toolCallParts ++ textParts
  | .toolResult toolName content diff =>
    if toolName == some "edit" && jsTruthyS diff then
      ["TOOL RESULT (edit) - DIFF:\n" ++ diff.getD ""]
    else
      let contentText := textOfBlocks content
      let preview :=
        if contentText.length > 500 then contentText.take 500 ++ "..." else contentText
      let nameShown :=
        match toolName with
        | some n => if n == "" then "unknown" else n
        | none => "unknown"
      ["TOOL RESULT (" ++ nameShown ++ "): " ++ preview]
  | .otherRole => []

/-- `formatRecentContext(messages, contextMode, maxMessages)`: process the
last entry in `results_only` mode, else the last `maxMessages` entries,
and join all contributed parts with blank lines. The source's default
`maxMessages = 10` is passed explicitly by every embedded caller. -/
def formatRecentContext (messages : List AgentMessage) (contextMode : ContextMode)
    (maxMessages : Nat) : String :=
  let messagesToProcess :=
    if contextMode == ContextMode.results_only then jsSliceLast 1 messages
    else jsSliceLast maxMessages messages
  String.intercalate "\n\n" (messagesToProcess.map (formatEntry contextMode)).flatten

/-! ## Review process runners (`runCritic`, `runCriticSync`)

The runners are embedded as total functions from an abstract record of
the subprocess's observable behaviour. Totality realises the contract
that a reviewer failure is never propagated as an exception: every
constructor of the input type maps to a returned `CriticResult`. -/

/-- A message object carried by a `message_end` stdout record. -/
structure SubMessage where
  role : String
  content : List ContentBlock
  deriving DecidableEq, Repr

/-- One parsed line of the subprocess's newline-delimited stdout:
a `message_end` record, an `error` record, or any other line (other
JSON record types and non-JSON lines alike are ignored). -/
inductive OutLine where
  | messageEnd (message : SubMessage)
  | errorEvent (message : String)
  | otherLine
  deriving DecidableEq, Repr

/-- The observable behaviour of one asynchronous reviewer subprocess:
an exception while preparing the temp prompt file (caught by the
runner's catch-all), the processed stdout lines, a spawn `error` event,
the exit code, and whether the timeout or the abort signal fired. -/
structure SubprocRun where
  tmpFileError : Option String
  lines : List OutLine
  procError : Option String
  exitCode : Int
  timedOut : Bool
  aborted : Bool
  deriving DecidableEq, Repr

/-- The observable behaviour of one synchronous reviewer subprocess
(`spawnSync`): a caught exception, a spawn error, the terminating
signal, and the parsed stdout lines. -/
structure SubprocSyncRun where
  tmpFileError : Option String
  spawnError : Option String
  signal : Option String
  lines : List OutLine
  deriving DecidableEq, Repr

/-- The messages pushed while streaming (`message_end` records). -/
def collectMessages (lines : List OutLine) : List SubMessage :=
  lines.filterMap fun l =>
    match l with
    | .messageEnd m => some m
    | _ => none

/-- `result.error` as left by the stream handler: the last `error`
record's message, if any. -/
def lastErrorEvent (lines : List OutLine) : Option String :=
  lines.foldl
    (fun acc l =>
      match l with
      | .errorEvent m => some m
      | _ => acc)
    none

/-- The first `text` block of a message. -/
def firstTextBlock : List ContentBlock → Option String
  | [] => none
  | .text s :: _ => some s
  | _ :: rest => firstTextBlock rest

/-- The critique extraction loop of `runCritic`: the first text block of
the last assistant message, or `""`. -/
def lastAssistantFirstText (msgs : List SubMessage) : String :=
  match msgs.reverse.find? (fun m => m.role == "assistant") with
  | none => ""
  | some m => (firstTextBlock m.content).getD ""

/-- The timeout error message of the asynchronous runner. -/
def timeoutErrText (timeoutMs : Nat) : String :=
  "Critic timed out after " ++ (toString timeoutMs ++ "ms")

/-- The non-zero-exit error message of the asynchronous runner. -/
def exitErrText (code : Int) : String :=
  "Critic process exited with code " ++ toString code

/-- `runCritic`: fold the subprocess behaviour into a `CriticResult`,
mirroring the source's order: caught exception, timeout, abort, exit
code, critique extraction, empty-output check, verdict parsing. -/
def runCritic (timeoutMs : Nat) (sr : SubprocRun) : CriticResult :=
  match sr.tmpFileError with
  | some m =>
    { critique := "(Critic error: " ++ m ++ ")", approved := false,
      status := none, error := some m, timedOut := false }
  | none =>
    let err1 :=
      match sr.procError with
      | some m => some m
      | none => lastErrorEvent sr.lines
    let exitCode : Int := if sr.procError.isSome then 1 else sr.exitCode
    if sr.timedOut then
      { critique := "(Critic timed out)", approved := false, status := none,
        error := some (timeoutErrText timeoutMs), timedOut := true }
    else if sr.aborted then
      { critique := "(Critic was aborted)", approved := false, status := none,
        error := some "Critic was aborted", timedOut := false }
    else
      let err2 :=
        if exitCode != 0 && !(jsTruthyS err1) then some (exitErrText exitCode) else err1
      let critique0 := lastAssistantFirstText (collectMessages sr.lines)
      let withEmptyCheck :=
        if critique0 == "" && !(jsTruthyS err2) then
          ("(No response from critic)", some "Critic returned empty response")
        else (critique0, err2)
      let v := parseVerdict withEmptyCheck.1
      { critique := v.critique, approved := v.approved, status := some v.status,
        error := withEmptyCheck.2, timedOut := false }

/-- The synchronous critique accumulation: for each assistant
`message_end`, overwrite the critique with the first text block when that
text is truthy. -/
def syncCritiqueOfLines (lines : List OutLine) : String :=
  lines.foldl
    (fun acc l =>
      match l with
      | .messageEnd m =>
        if m.role == "assistant" then
          match firstTextBlock m.content with
          | some t => if t == "" then acc else t
          | none => acc
        else acc
      | _ => acc)
    ""

/-- `runCriticSync`: caught exception, spawn error, SIGTERM timeout,
then critique accumulation and verdict parsing. The synchronous variant
sets no error on the parse path and performs no empty-output check. -/
def runCriticSync (sr : SubprocSyncRun) : CriticResult :=
  match sr.tmpFileError with
  | some m =>
    { critique := "(Critic error: " ++ m ++ ")", approved := false,
      status := none, error := some m, timedOut := false }
  | none =>
    match sr.spawnError with
    | some m =>
      { critique := "", approved := false, status := none,
        error := some m, timedOut := false }
    | none =>
      if sr.signal == some "SIGTERM" then
        { critique := "", approved := false, status := none,
          error := some "Critic timed out", timedOut := true }
      else
        let v := parseVerdict (syncCritiqueOfLines sr.lines)
        { critique := v.critique, approved := v.approved, status := some v.status,
          error := none, timedOut := false }

/-! ## Trigger governor and feedback router (`triggerCritic`)

`triggerCritic` is split as in the source: the guard section (enabled,
in-flight flag, review cap with the stop-instruction escalation) and the
completion section (record the verdict, display the outcome, route
feedback, clear the flag in the `finally`). The emitted effects are
recorded as an `Emit` list; `Emit.reviewRun` marks the reviewer
subprocess invocation. -/

/-- An observable effect of the extension. -/
inductive Emit where
  | reviewRun
  | displayMessage (customType : String) (content : String)
  | userMessage (text : String) (deliverAs : String)
  deriving DecidableEq, Repr

/-- The stop instruction injected when the cap is reached without
approval. -/
def stopText (maxReviews : Nat) : String :=
  "[Critic]: STOP. Maximum review attempts (" ++
    (toString maxReviews ++
      ") reached without approval. Wait for user input before continuing.")

/-- The reviewer-originated feedback message. -/
def feedbackText (critique : String) : String :=
  "[Critic feedback]: " ++ critique

/-- The completion section of `triggerCritic`, entered with the runtime
state already incremented: record the verdict, display the outcome in
the TUI channel, route the critique as a follow-up when not approved,
error-free, non-empty and still under the cap, and clear the in-flight
flag (the source's `finally`). -/
def completeReview (cfg : CriticState) (rt : CriticRuntimeState) (result : CriticResult) :
    CriticRuntimeState × List Emit :=
  let rt1 := { rt with lastVerdictApproved := some result.approved }
  let feedbackEmits :=
    if !result.approved && !(jsTruthyS result.error) && !(strTrimJs result.critique == "") then
      if rt.reviewsThisPrompt < cfg.maxReviewsPerPrompt then
        [Emit.userMessage (feedbackText result.critique) "followUp"]
      else []
    else []
  ({ rt1 with isProcessingCritic := false },
    Emit.displayMessage "critic-review" result.critique :: feedbackEmits)

/-- `triggerCritic`: disabled and in-flight triggers return silently; at
the cap the trigger is refused, escalating with one stop instruction when
the last verdict was non-approval; otherwise the in-flight flag is set,
the counter incremented, the reviewer invoked (its outcome is the
`result` argument) and the completion section run. -/
def triggerCritic (cfg : CriticState) (rt : CriticRuntimeState) (result : CriticResult) :
    CriticRuntimeState × List Emit :=
  if !cfg.enabled then (rt, [])
  else if rt.isProcessingCritic then (rt, [])
  else if cfg.maxReviewsPerPrompt ≤ rt.reviewsThisPrompt then
    if rt.lastVerdictApproved == some false then
      (rt, [Emit.userMessage (stopText cfg.maxReviewsPerPrompt) "steer"])
    else (rt, [])
  else
    let rtStarted :=
      { rt with isProcessingCritic := true, reviewsThisPrompt := rt.reviewsThisPrompt + 1 }
    let done := completeReview cfg rtStarted result
    (done.1, Emit.reviewRun :: done.2)

/-- The `before_agent_start` handler: reset the per-request runtime state
unless the prompt begins with the critic marker prefix. -/
def beforeAgentStart (rt : CriticRuntimeState) (prompt : String) (now : Nat) :
    CriticRuntimeState :=
  if startsWithJs prompt "[Critic" then rt
  else
    { rt with reviewsThisPrompt := 0, lastUserPromptTime := now, lastVerdictApproved := none }

/-! ## Context-build filter (`pi.on("context")`) -/

/-- An entry of the context assembled for the primary model; only the
optional `customType` tag matters to the filter. -/
structure CtxMessage where
  customType : Option String
  content : String
  deriving DecidableEq, Repr

/-- The `context` handler: keep every entry whose `customType` is not
`"critic-review"`. -/
def filterContext (ms : List CtxMessage) : List CtxMessage :=
  ms.filter fun m => !(m.customType == some "critic-review")

/-! ## Event runs over the runtime state -/

/-- Events driving the runtime state: a qualifying trigger whose review
would produce the given outcome, or an agent start with a prompt. -/
inductive Event where
  | trigger (outcome : CriticResult)
  | userPrompt (prompt : String) (now : Nat)
  deriving DecidableEq, Repr

/-- Whether an event is a genuine new user request (an agent start whose
prompt does not begin with `"[Critic"`). -/
def genuineEvent : Event → Bool
  | .trigger _ => false
  | .userPrompt p _ => !(startsWithJs p "[Critic")

/-- One event step. -/
def step (cfg : CriticState) (rt : CriticRuntimeState) : Event → CriticRuntimeState × List Emit
  | .trigger o => triggerCritic cfg rt o
  | .userPrompt p now => (beforeAgentStart rt p now, [])

/-- Run a sequence of events, accumulating the emitted effects. -/
def runEvents (cfg : CriticState) (rt : CriticRuntimeState) :
    List Event → CriticRuntimeState × List Emit
  | [] => (rt, [])
  | e :: es =>
    let first := step cfg rt e
    let rest := runEvents cfg first.1 es
    (rest.1, first.2 ++ rest.2)

/-- A stop-instruction injection among the emitted effects. -/
def isStopEmit : Emit → Bool
  | .userMessage t d => startsWithJs t "[Critic]: STOP" && d == "steer"
  | _ => false

/-! ## Concrete fixtures for witnesses and counterexamples -/

/-- A configuration with the review cap set to 1 (`--critic-max-reviews 1`). -/
def exCfg1 : CriticState :=
  { enabled := true, model := none, systemPrompt := "", triggerMode := TriggerMode.turn_end,
    triggerTools := ["write", "edit", "bash"], timeoutMs := 60000, debug := false,
    maxReviewsPerPrompt := 1, contextMode := ContextMode.messages }

/-- A configuration with the review cap set to 2. -/
def exCfg2 : CriticState :=
  { exCfg1 with maxReviewsPerPrompt := 2 }

/-- The freshly reset runtime state. -/
def exRt0 : CriticRuntimeState :=
  { reviewsThisPrompt := 0, lastUserPromptTime := 0, isProcessingCritic := false,
    lastVerdictApproved := none }

/-- A runtime state at the cap of `exCfg1` with a non-approval recorded. -/
def exRtCap : CriticRuntimeState :=
  { reviewsThisPrompt := 1, lastUserPromptTime := 0, isProcessingCritic := false,
    lastVerdictApproved := some false }

/-- A runtime state with a review in flight. -/
def exRtBusy : CriticRuntimeState :=
  { reviewsThisPrompt := 0, lastUserPromptTime := 0, isProcessingCritic := true,
    lastVerdictApproved := none }

/-- A non-approved, error-free review outcome. -/
def exNeedsWork : CriticResult :=
  { critique := "Fix the bug", approved := false, status := some "NEEDS_WORK",
    error := none, timedOut := false }

/-- An approved review outcome. -/
def exApproved : CriticResult :=
  { critique := "Ship it", approved := true, status := some "APPROVED",
    error := none, timedOut := false }

/-- A critique carrying a well-formed verdict marker. -/
def exMarked : String :=
  "Looks fine.\n\n<critic_verdict>\nstatus: APPROVED\n</critic_verdict>"

/-- An asynchronous subprocess run that hit the timeout. -/
def exTimeoutRun : SubprocRun :=
  { tmpFileError := none, lines := [], procError := none, exitCode := 0,
    timedOut := true, aborted := false }

/-- A synchronous subprocess run killed by an external SIGTERM with no
spawn error: the only input that reaches the source's SIGTERM branch.
A genuine `spawnSync` timeout is a different observation, `exRealTimeoutSyncRun`. -/
def exExternalKillSyncRun : SubprocSyncRun :=
  { tmpFileError := none, spawnError := none, signal := some "SIGTERM", lines := [] }

/-- A synchronous subprocess run whose timeout expired, as Node's
`spawnSync` contract reports it: the child is killed with SIGTERM *and*
the returned object's `error` is set to an ETIMEDOUT error, so the
source's `spawnResult.error` check fires before its SIGTERM check. -/
def exRealTimeoutSyncRun : SubprocSyncRun :=
  { tmpFileError := none, spawnError := some "spawnSync pi ETIMEDOUT",
    signal := some "SIGTERM", lines := [] }

/-- A synchronous subprocess run that completed with no output at all. -/
def exEmptySyncRun : SubprocSyncRun :=
  { tmpFileError := none, spawnError := none, signal := none, lines := [] }

/-- An asynchronous run whose spawn failed. -/
def exSpawnFailRun : SubprocRun :=
  { tmpFileError := none, lines := [], procError := some "spawn pi ENOENT",
    exitCode := 0, timedOut := false, aborted := false }

/-- An asynchronous run that exited cleanly with no output at all. -/
def exEmptyRun : SubprocRun :=
  { tmpFileError := none, lines := [], procError := none, exitCode := 0,
    timedOut := false, aborted := false }

end Critic

namespace Critic

/-! ## Helper lemmas -/

theorem startsWithJs_append_left (pre a b : String) (h : pre.data <+: a.data) :
    startsWithJs (a ++ b) pre = true := by
  unfold startsWithJs
  rw [List.isPrefixOf_iff_prefix, String.data_append]
  exact h.trans (List.prefix_append _ _)

theorem feedbackText_startsWith (c : String) :
    startsWithJs (feedbackText c) "[Critic" = true :=
  startsWithJs_append_left _ _ _
    (List.isPrefixOf_iff_prefix.mp (by decide))

theorem stopText_startsWith (m : Nat) :
    startsWithJs (stopText m) "[Critic" = true :=
  startsWithJs_append_left _ _ _
    (List.isPrefixOf_iff_prefix.mp (by decide))

theorem completeReview_fst_flag (cfg : CriticState) (rt : CriticRuntimeState)
    (o : CriticResult) : (completeReview cfg rt o).1.isProcessingCritic = false := by
  simp [completeReview]

theorem completeReview_fst_reviews (cfg : CriticState) (rt : CriticRuntimeState)
    (o : CriticResult) :
    (completeReview cfg rt o).1.reviewsThisPrompt = rt.reviewsThisPrompt := by
  simp [completeReview]

theorem triggerCritic_of_processing (cfg : CriticState) (rt : CriticRuntimeState)
    (o : CriticResult) (h : rt.isProcessingCritic = true) :
    triggerCritic cfg rt o = (rt, []) := by
  cases he : cfg.enabled <;> simp [triggerCritic, he, h]

theorem triggerCritic_fst_of_cap (cfg : CriticState) (rt : CriticRuntimeState)
    (o : CriticResult) (h : cfg.maxReviewsPerPrompt ≤ rt.reviewsThisPrompt) :
    (triggerCritic cfg rt o).1 = rt := by
  cases he : cfg.enabled
  · simp [triggerCritic, he]
  · cases hp : rt.isProcessingCritic
    · simp [triggerCritic, he, hp, h]
      split <;> rfl
    · simp [triggerCritic, he, hp]

theorem triggerCritic_no_reviewRun_of_cap (cfg : CriticState) (rt : CriticRuntimeState)
    (o : CriticResult) (h : cfg.maxReviewsPerPrompt ≤ rt.reviewsThisPrompt) :
    Emit.reviewRun ∉ (triggerCritic cfg rt o).2 := by
  cases he : cfg.enabled
  · simp [triggerCritic, he]
  · cases hp : rt.isProcessingCritic
    · simp [triggerCritic, he, hp, h]
      split <;> simp
    · simp [triggerCritic, he, hp]

theorem triggerCritic_reviews_le (cfg : CriticState) (rt : CriticRuntimeState)
    (o : CriticResult) (h : rt.reviewsThisPrompt ≤ cfg.maxReviewsPerPrompt) :
    (triggerCritic cfg rt o).1.reviewsThisPrompt ≤ cfg.maxReviewsPerPrompt := by
  by_cases hc : cfg.maxReviewsPerPrompt ≤ rt.reviewsThisPrompt
  · rw [triggerCritic_fst_of_cap cfg rt o hc]
    exact h
  · cases he : cfg.enabled
    · simp [triggerCritic, he]
      exact h
    · cases hp : rt.isProcessingCritic
      · simp [triggerCritic, he, hp, hc, completeReview]
        omega
      · simp [triggerCritic, he, hp]
        exact h

theorem beforeAgentStart_reviews_le (rt : CriticRuntimeState) (p : String) (now : Nat) :
    (beforeAgentStart rt p now).reviewsThisPrompt ≤ rt.reviewsThisPrompt := by
  unfold beforeAgentStart
  split <;> simp

theorem beforeAgentStart_of_critic (rt : CriticRuntimeState) (p : String) (now : Nat)
    (h : startsWithJs p "[Critic" = true) : beforeAgentStart rt p now = rt := by
  simp [beforeAgentStart, h]

theorem step_at_cap (cfg : CriticState) (rt : CriticRuntimeState) (e : Event)
    (hc : cfg.maxReviewsPerPrompt ≤ rt.reviewsThisPrompt) (hg : genuineEvent e = false) :
    (step cfg rt e).1 = rt ∧ Emit.reviewRun ∉ (step cfg rt e).2 := by
  cases e with
  | trigger o =>
    exact ⟨triggerCritic_fst_of_cap cfg rt o hc, triggerCritic_no_reviewRun_of_cap cfg rt o hc⟩
  | userPrompt p now =>
    have hs : startsWithJs p "[Critic" = true := by
      simpa [genuineEvent] using hg
    simp [step, beforeAgentStart_of_critic rt p now hs]

theorem runEvents_reviews_le (cfg : CriticState) :
    ∀ (events : List Event) (rt : CriticRuntimeState),
      rt.reviewsThisPrompt ≤ cfg.maxReviewsPerPrompt →
      (runEvents cfg rt events).1.reviewsThisPrompt ≤ cfg.maxReviewsPerPrompt
  | [], rt, h => h
  | e :: es, rt, h => by
    have hstep : (step cfg rt e).1.reviewsThisPrompt ≤ cfg.maxReviewsPerPrompt := by
      cases e with
      | trigger o => exact triggerCritic_reviews_le cfg rt o h
      | userPrompt p now =>
        exact le_trans (beforeAgentStart_reviews_le rt p now) h
    simpa [runEvents] using runEvents_reviews_le cfg es (step cfg rt e).1 hstep

theorem runEvents_no_reviewRun_at_cap (cfg : CriticState) :
    ∀ (events : List Event) (rt : CriticRuntimeState),
      cfg.maxReviewsPerPrompt ≤ rt.reviewsThisPrompt →
      (∀ e ∈ events, genuineEvent e = false) →
      Emit.reviewRun ∉ (runEvents cfg rt events).2
  | [], rt, _, _ => by simp [runEvents]
  | e :: es, rt, hc, hg => by
    have he := step_at_cap cfg rt e hc (hg e (List.mem_cons_self e es))
    have hrest : Emit.reviewRun ∉ (runEvents cfg (step cfg rt e).1 es).2 := by
      rw [he.1]
      exact runEvents_no_reviewRun_at_cap cfg es rt hc
        (fun x hx => hg x (List.mem_cons_of_mem e hx))
    simp only [runEvents, List.mem_append]
    rintro (h1 | h2)
    · exact he.2 h1
    · rw [he.1] at h2
      exact runEvents_no_reviewRun_at_cap cfg es rt hc
        (fun x hx => hg x (List.mem_cons_of_mem e hx)) h2

/-! ## Claims -/

/-- C1: `reviewsThisPrompt` never exceeds `maxReviewsPerPrompt` over any
run of trigger and agent-start events; once the counter has reached the
cap, `triggerCritic` refuses every further trigger — no reviewer
subprocess invocation is emitted — for as long as no genuine new user
request occurs; and a genuine user request (a prompt not starting with
the critic marker) resets the counter to 0. -/
theorem C1_review_cap_invariant (cfg : CriticState) (rt : CriticRuntimeState)
    (events : List Event) :
    (rt.reviewsThisPrompt ≤ cfg.maxReviewsPerPrompt →
      (runEvents cfg rt events).1.reviewsThisPrompt ≤ cfg.maxReviewsPerPrompt)
    ∧ (cfg.maxReviewsPerPrompt ≤ rt.reviewsThisPrompt →
        (∀ e ∈ events, genuineEvent e = false) →
        Emit.reviewRun ∉ (runEvents cfg rt events).2)
    ∧ (∀ p now, startsWithJs p "[Critic" = false →
        (beforeAgentStart rt p now).reviewsThisPrompt = 0) := by
  refine ⟨fun h => runEvents_reviews_le cfg events rt h,
    fun hc hg => runEvents_no_reviewRun_at_cap cfg events rt hc hg,
    fun p now hp => ?_⟩
  simp [beforeAgentStart, hp]

/-- Witness for C1 at the cap `maxReviewsPerPrompt = 1`: starting at the
cap with a non-approval recorded, two further triggers and a
critic-originated steer prompt keep the counter within the cap and
invoke the reviewer on none of them. -/
theorem C1_review_cap_invariant_witness :
    (runEvents exCfg1 exRtCap
        [Event.trigger exNeedsWork, Event.userPrompt (stopText 1) 7,
          Event.trigger exNeedsWork]).1.reviewsThisPrompt ≤ 1
    ∧ Emit.reviewRun ∉ (runEvents exCfg1 exRtCap
        [Event.trigger exNeedsWork, Event.userPrompt (stopText 1) 7,
          Event.trigger exNeedsWork]).2
    ∧ (beforeAgentStart exRtCap "please fix the tests" 9).reviewsThisPrompt = 0 := by
  have h := C1_review_cap_invariant exCfg1 exRtCap
    [Event.trigger exNeedsWork, Event.userPrompt (stopText 1) 7, Event.trigger exNeedsWork]
  exact ⟨h.1 (by decide), h.2.1 (by decide) (by decide),
    h.2.2 "please fix the tests" 9 (by decide)⟩

/-- C4 counterexample: with `maxReviewsPerPrompt = 1`, one completed
non-approved review followed by two further triggers within the same
user request injects the stop instruction twice — the injection is
repeated on every refusal at the cap, not performed exactly once. -/
theorem C4_counterexample :
    List.countP isStopEmit
      (runEvents exCfg1 exRt0
        [Event.trigger exNeedsWork, Event.trigger exNeedsWork,
          Event.trigger exNeedsWork]).2 = 2 := by
  decide

/-- C4 (amended): every refusal of a trigger because the cap was reached
while the last recorded verdict was non-approval emits exactly one
stop-instruction injection and leaves the runtime state unchanged; the
injection is therefore repeated, not suppressed, on each subsequent such
refusal within the same request. -/
theorem C4_stop_injection_per_refusal (cfg : CriticState) (rt : CriticRuntimeState)
    (o : CriticResult) (hen : cfg.enabled = true) (hp : rt.isProcessingCritic = false)
    (hcap : cfg.maxReviewsPerPrompt ≤ rt.reviewsThisPrompt)
    (hv : rt.lastVerdictApproved = some false) :
    triggerCritic cfg rt o
      = (rt, [Emit.userMessage (stopText cfg.maxReviewsPerPrompt) "steer"]) := by
  simp [triggerCritic, hen, hp, hcap, hv]

/-- Witness for C4 (amended) at the cap with a recorded non-approval. -/
theorem C4_stop_injection_per_refusal_witness :
    triggerCritic exCfg1 exRtCap exNeedsWork
      = (exRtCap, [Emit.userMessage (stopText 1) "steer"]) :=
  C4_stop_injection_per_refusal exCfg1 exRtCap exNeedsWork rfl rfl (by decide) rfl

/-- C8: while the in-flight flag `isProcessingCritic` is set, every
further trigger is silently dropped — `triggerCritic` returns with the
state unchanged and emits nothing, neither a reviewer invocation nor any
queued message; the completion section clears the flag on every path;
and `triggerCritic` never leaves the flag in a different state than it
found it. -/
theorem C8_in_flight_mutual_exclusion :
    (∀ (cfg : CriticState) (rt : CriticRuntimeState) (o : CriticResult),
      rt.isProcessingCritic = true → triggerCritic cfg rt o = (rt, []))
    ∧ (∀ (cfg : CriticState) (rt : CriticRuntimeState) (o : CriticResult),
        (completeReview cfg rt o).1.isProcessingCritic = false)
    ∧ (∀ (cfg : CriticState) (rt : CriticRuntimeState) (o : CriticResult),
        (triggerCritic cfg rt o).1.isProcessingCritic = rt.isProcessingCritic) := by
  refine ⟨triggerCritic_of_processing, completeReview_fst_flag, fun cfg rt o => ?_⟩
  cases he : cfg.enabled
  · simp [triggerCritic, he]
  · cases hp : rt.isProcessingCritic
    · by_cases hc : cfg.maxReviewsPerPrompt ≤ rt.reviewsThisPrompt
      · simp [triggerCritic, he, hp, hc]
        split <;> simp [hp]
      · simp [triggerCritic, he, hp, hc, completeReview]
    · simp [triggerCritic, he, hp]

/-- Witness for C8: a trigger arriving while a review is in flight is
dropped with no state change and no emission. -/
theorem C8_in_flight_mutual_exclusion_witness :
    triggerCritic exCfg1 exRtBusy exNeedsWork = (exRtBusy, []) :=
  C8_in_flight_mutual_exclusion.1 exCfg1 exRtBusy exNeedsWork rfl

/-- C10: the `before_agent_start` handler resets the per-request runtime
state (counter to 0, prompt time to now, verdict memory cleared) exactly
when the prompt does not start with `"[Critic"`; both critic-originated
injections — the feedback follow-up and the stop instruction — start
with that prefix, as does every user message `triggerCritic` ever emits,
so critic messages never reset the state; a prompt that starts with
`"[Critic"` leaves the state untouched. -/
theorem C10_reset_iff_genuine_prompt (rt : CriticRuntimeState) (p : String) (now : Nat) :
    (startsWithJs p "[Critic" = false →
      beforeAgentStart rt p now
        = { rt with
              reviewsThisPrompt := 0
              lastUserPromptTime := now
              lastVerdictApproved := none })
    ∧ (startsWithJs p "[Critic" = true → beforeAgentStart rt p now = rt)
    ∧ (∀ c, startsWithJs (feedbackText c) "[Critic" = true)
    ∧ (∀ m, startsWithJs (stopText m) "[Critic" = true)
    ∧ (∀ (cfg : CriticState) (rt2 : CriticRuntimeState) (o : CriticResult) (t d : String),
        Emit.userMessage t d ∈ (triggerCritic cfg rt2 o).2 →
        startsWithJs t "[Critic" = true) := by
  refine ⟨fun h => by simp [beforeAgentStart, h],
    fun h => beforeAgentStart_of_critic rt p now h,
    feedbackText_startsWith, stopText_startsWith,
    fun cfg rt2 o t d hm => ?_⟩
  cases he : cfg.enabled
  · simp [triggerCritic, he] at hm
  · cases hp : rt2.isProcessingCritic
    · by_cases hc : cfg.maxReviewsPerPrompt ≤ rt2.reviewsThisPrompt
      · cases hv : rt2.lastVerdictApproved == some false
        · simp [triggerCritic, he, hp, hc, hv] at hm
        · simp [triggerCritic, he, hp, hc, hv] at hm
          rw [hm.1]
          exact stopText_startsWith _
      · cases hA : (!o.approved && !(jsTruthyS o.error) && !(strTrimJs o.critique == ""))
        · simp [triggerCritic, he, hp, hc, completeReview, hA] at hm
        · by_cases hB : rt2.reviewsThisPrompt + 1 < cfg.maxReviewsPerPrompt
          · simp [triggerCritic, he, hp, hc, completeReview, hA, hB] at hm
            rw [hm.1]
            exact feedbackText_startsWith _
          · simp [triggerCritic, he, hp, hc, completeReview, hA, hB] at hm
    · simp [triggerCritic, he, hp] at hm

/-- C2: the context-build filter removes every entry tagged with the
critic's `customType` `"critic-review"` and keeps every other entry in
order, while every completed review unconditionally emits its outcome on
the display channel under exactly that tag; and `triggerCritic` is
independent of the configured trigger mode, so this holds for all
trigger modes. -/
theorem C2_outcome_excluded_from_context :
    (∀ ms : List CtxMessage,
      (∀ m ∈ filterContext ms, m.customType ≠ some "critic-review")
      ∧ (∀ m ∈ ms, m.customType ≠ some "critic-review" → m ∈ filterContext ms)
      ∧ List.Sublist (filterContext ms) ms)
    ∧ (∀ (cfg : CriticState) (rt : CriticRuntimeState) (o : CriticResult),
        cfg.enabled = true → rt.isProcessingCritic = false →
        rt.reviewsThisPrompt < cfg.maxReviewsPerPrompt →
        Emit.displayMessage "critic-review" o.critique ∈ (triggerCritic cfg rt o).2)
    ∧ (∀ (cfg : CriticState) (mode : TriggerMode) (rt : CriticRuntimeState)
        (o : CriticResult),
        triggerCritic { cfg with triggerMode := mode } rt o = triggerCritic cfg rt o) := by
  refine ⟨fun ms => ⟨?_, ?_, List.filter_sublist ms⟩, ?_, ?_⟩
  · intro m hmem
    have h := List.mem_filter.mp hmem
    simpa using h.2
  · intro m hm hne
    exact List.mem_filter.mpr ⟨hm, by simpa using hne⟩
  · intro cfg rt o hen hp hlt
    have hnc : ¬ (cfg.maxReviewsPerPrompt ≤ rt.reviewsThisPrompt) := Nat.not_le.mpr hlt
    simp [triggerCritic, hen, hp, hnc, completeReview]
  · intro cfg mode rt o
    cases cfg
    rfl

/-- Witness for C2: with the guards satisfied, the display emission under
the `"critic-review"` tag occurs, and a mixed context slice is filtered
down to exactly its non-critic entries. -/
theorem C2_outcome_excluded_from_context_witness :
    Emit.displayMessage "critic-review" exNeedsWork.critique
      ∈ (triggerCritic exCfg1 exRt0 exNeedsWork).2
    ∧ ({ customType := some "critic-review", content := "review" } : CtxMessage)
        ∉ filterContext
          [{ customType := none, content := "hello" },
            { customType := some "critic-review", content := "review" }] := by
  refine ⟨C2_outcome_excluded_from_context.2.1 exCfg1 exRt0 exNeedsWork rfl rfl (by decide),
    fun hmem => ?_⟩
  exact (C2_outcome_excluded_from_context.1 _).1 _ hmem rfl

/-- C5: with a review actually run (enabled, not in flight, under the
cap), the critique is routed into the primary agent's input stream as a
`"[Critic feedback]: "`-prefixed follow-up exactly when the outcome is a
non-approval that carries no (truthy) error, has critique text that is
non-empty after trimming, and the incremented counter is still under the
cap; when the outcome is an approval or carries an error, the emissions
are exactly the reviewer invocation and the display message. -/
theorem C5_feedback_routing_iff (cfg : CriticState) (rt : CriticRuntimeState)
    (o : CriticResult) (hen : cfg.enabled = true) (hp : rt.isProcessingCritic = false)
    (hlt : rt.reviewsThisPrompt < cfg.maxReviewsPerPrompt) :
    (Emit.userMessage (feedbackText o.critique) "followUp" ∈ (triggerCritic cfg rt o).2
      ↔ (o.approved = false ∧ jsTruthyS o.error = false ∧ ¬(strTrimJs o.critique = "")
          ∧ rt.reviewsThisPrompt + 1 < cfg.maxReviewsPerPrompt))
    ∧ ((o.approved = true ∨ jsTruthyS o.error = true) →
        (triggerCritic cfg rt o).2
          = [Emit.reviewRun, Emit.displayMessage "critic-review" o.critique]) := by
  have hnc : ¬ (cfg.maxReviewsPerPrompt ≤ rt.reviewsThisPrompt) := Nat.not_le.mpr hlt
  constructor
  · cases ha : o.approved
    · cases herr : jsTruthyS o.error
      · cases hcrit : (strTrimJs o.critique == "")
        · by_cases hB : rt.reviewsThisPrompt + 1 < cfg.maxReviewsPerPrompt
          · simp [triggerCritic, hen, hp, hnc, completeReview, ha, herr, hcrit, hB]
            exact ne_of_beq_false hcrit
          · simp [triggerCritic, hen, hp, hnc, completeReview, ha, herr, hcrit, hB]
        · simp [triggerCritic, hen, hp, hnc, completeReview, ha, herr, hcrit]
          exact fun h => absurd (eq_of_beq hcrit) h
      · simp [triggerCritic, hen, hp, hnc, completeReview, ha, herr]
    · simp [triggerCritic, hen, hp, hnc, completeReview, ha]
  · rintro (ha | herr)
    · simp [triggerCritic, hen, hp, hnc, completeReview, ha]
    · simp [triggerCritic, hen, hp, hnc, completeReview, herr]

/-- Witness for C5: a non-approved, error-free, non-empty outcome under a
cap of 2 is routed as feedback; an approved outcome yields only the
invocation and the display emission. -/
theorem C5_feedback_routing_iff_witness :
    Emit.userMessage (feedbackText exNeedsWork.critique) "followUp"
      ∈ (triggerCritic exCfg2 exRt0 exNeedsWork).2
    ∧ (triggerCritic exCfg2 exRt0 exApproved).2
        = [Emit.reviewRun, Emit.displayMessage "critic-review" exApproved.critique] :=
  ⟨((C5_feedback_routing_iff exCfg2 exRt0 exNeedsWork rfl rfl (by decide)).1).mpr
      (by refine ⟨rfl, rfl, by decide, by decide⟩),
    (C5_feedback_routing_iff exCfg2 exRt0 exApproved rfl rfl (by decide)).2 (Or.inl rfl)⟩

/-- C9 counterexample: on the empty conversation slice, `results_only`
mode emits the empty block — the content of no entry at all — while a
one-entry slice emits that entry's content; so the curator does not emit
exactly one entry's content for *every* slice. -/
theorem C9_counterexample :
    formatRecentContext [] ContextMode.results_only 10 = ""
    ∧ formatRecentContext [AgentMessage.user (Sum.inl "hi")] ContextMode.results_only 10
        = "USER: hi" := by
  exact ⟨rfl, by decide⟩

/-- C9 (amended): for every non-empty conversation slice, the curator in
`results_only` mode emits exactly the most recent entry's content: the
output over any slice `pre ++ [m]` equals the output over `[m]` alone,
for every bound; the empty slice yields the empty block. -/
theorem C9_results_only_last_entry (pre : List AgentMessage) (m : AgentMessage) (k : Nat) :
    formatRecentContext (pre ++ [m]) ContextMode.results_only k
      = formatRecentContext [m] ContextMode.results_only k
    ∧ formatRecentContext [] ContextMode.results_only k = "" := by
  have h1 : (pre ++ [m]).drop ((pre ++ [m]).length - 1) = [m] := by
    have h2 : (pre ++ [m]).length - 1 = pre.length := by simp
    rw [h2]
    exact List.drop_left pre [m]
  exact ⟨by simp [formatRecentContext, jsSliceLast, h1], rfl⟩

/-- Witness for C10: a genuine prompt resets the state, the critic's own
stop steer does not. -/
theorem C10_reset_iff_genuine_prompt_witness :
    beforeAgentStart exRtCap "please fix the tests" 11
      = { exRtCap with
            reviewsThisPrompt := 0
            lastUserPromptTime := 11
            lastVerdictApproved := none }
    ∧ beforeAgentStart exRtCap (stopText 1) 12 = exRtCap :=
  ⟨(C10_reset_iff_genuine_prompt exRtCap "please fix the tests" 11).1 (by decide),
    (C10_reset_iff_genuine_prompt exRtCap (stopText 1) 12).2.1 (by decide)⟩

theorem matchKeyword_mem (s : List Char) (kw : String) (r : List Char)
    (h : matchKeyword s = some (kw, r)) :
    kw = "APPROVED" ∨ kw = "NEEDS_WORK" ∨ kw = "BLOCKED" := by
  unfold matchKeyword at h
  cases hA : stripCI "APPROVED".data s with
  | some rA =>
    simp [hA] at h
    exact Or.inl h.1.symm
  | none =>
    cases hN : stripCI "NEEDS_WORK".data s with
    | some rN =>
      simp [hA, hN] at h
      exact Or.inr (Or.inl h.1.symm)
    | none =>
      cases hB : stripCI "BLOCKED".data s with
      | some rB =>
        simp [hA, hN, hB] at h
        exact Or.inr (Or.inr h.1.symm)
      | none => simp [hA, hN, hB] at h

theorem matchVerdictAt_mem (s : List Char) (kw : String)
    (h : matchVerdictAt s = some kw) :
    kw = "APPROVED" ∨ kw = "NEEDS_WORK" ∨ kw = "BLOCKED" := by
  unfold matchVerdictAt at h
  cases h1 : stripCI openTag s with
  | none => simp [h1] at h
  | some r1 =>
    cases h2 : stripCI "status:".data (skipWs r1) with
    | none => simp [h1, h2] at h
    | some r2 =>
      cases h3 : matchKeyword (skipWs r2) with
      | none => simp [h1, h2, h3] at h
      | some kr =>
        obtain ⟨kw1, r3⟩ := kr
        cases h4 : stripCI closeTag (skipWs r3) with
        | none => simp [h1, h2, h3, h4] at h
        | some r4 =>
          simp [h1, h2, h3, h4] at h
          exact h ▸ matchKeyword_mem (skipWs r2) kw1 r3 h3

theorem findVerdict_mem :
    ∀ (s : List Char) (kw : String), findVerdict s = some kw →
      kw = "APPROVED" ∨ kw = "NEEDS_WORK" ∨ kw = "BLOCKED"
  | [], kw, h => by simp [findVerdict] at h
  | c :: cs, kw, h => by
    cases hm : matchVerdictAt (c :: cs) with
    | some kw1 =>
      rw [findVerdict, hm] at h
      exact (Option.some_inj.mp h) ▸ matchVerdictAt_mem (c :: cs) kw1 hm
    | none =>
      rw [findVerdict, hm] at h
      exact findVerdict_mem cs kw h

/-- C3: for every critique text, the parsed status is one of exactly
`APPROVED`, `NEEDS_WORK`, `BLOCKED`; when the case-insensitive
`<critic_verdict>` marker block with one of these keywords is present,
`approved` holds exactly when the status is `APPROVED` and the returned
critique is the input with the marker block removed (and trimmed); when
no marker is present, the status is `NEEDS_WORK`, `approved` is `false`
and the critique text is returned intact. -/
theorem C3_verdict_parsing (s : String) :
    ((parseVerdict s).status = "APPROVED" ∨ (parseVerdict s).status = "NEEDS_WORK"
      ∨ (parseVerdict s).status = "BLOCKED")
    ∧ (hasVerdictMarker s = true →
        ((parseVerdict s).approved = true ↔ (parseVerdict s).status = "APPROVED")
        ∧ (parseVerdict s).critique = String.mk (trimChars (removeVerdictBlock s.data)))
    ∧ (hasVerdictMarker s = false →
        (parseVerdict s).status = "NEEDS_WORK" ∧ (parseVerdict s).approved = false
        ∧ (parseVerdict s).critique = s) := by
  cases hf : findVerdict s.data with
  | some kw =>
    refine ⟨?_, fun _ => ⟨?_, ?_⟩, fun hm => ?_⟩
    · simpa [parseVerdict, hf] using findVerdict_mem s.data kw hf
    · simp [parseVerdict, hf]
    · simp [parseVerdict, hf]
    · simp [hasVerdictMarker, hf] at hm
  | none =>
    refine ⟨?_, fun hm => ?_, fun _ => ?_⟩
    · simp [parseVerdict, hf]
    · simp [hasVerdictMarker, hf] at hm
    · simp [parseVerdict, hf]

/-- Witness for C3 on a critique carrying an `APPROVED` marker block. -/
theorem C3_verdict_parsing_witness :
    hasVerdictMarker exMarked = true
    ∧ ((parseVerdict exMarked).approved = true ↔ (parseVerdict exMarked).status = "APPROVED")
    ∧ (parseVerdict exMarked).critique
        = String.mk (trimChars (removeVerdictBlock exMarked.data)) := by
  have h := C3_verdict_parsing exMarked
  exact ⟨by decide, (h.2.1 (by decide)).1, (h.2.1 (by decide)).2⟩

theorem append_beq_empty_eq_false (a b : String) (h : a.data ≠ []) :
    ((a ++ b) == "") = false := by
  rw [beq_eq_false_iff_ne]
  intro hco
  apply h
  have hd := congrArg String.data hco
  rw [String.data_append] at hd
  exact (List.append_eq_nil.mp hd).1

theorem jsTruthyS_timeoutErr (t : Nat) : jsTruthyS (some (timeoutErrText t)) = true := by
  show (!(timeoutErrText t == "")) = true
  unfold timeoutErrText
  rw [append_beq_empty_eq_false _ _ (by decide)]
  rfl

theorem jsTruthyS_exitErr (c : Int) : jsTruthyS (some (exitErrText c)) = true := by
  show (!(exitErrText c == "")) = true
  unfold exitErrText
  rw [append_beq_empty_eq_false _ _ (by decide)]
  rfl

/-- C6: the asynchronous runner honours the claim — its own timeout flag
yields `timedOut = true`, the error field set, `approved = false`, and
`triggerCritic` then emits only the reviewer invocation and the display
message. For the synchronous runner — the variant every trigger site
uses — a genuine timeout is observed as `spawnSync` reporting an
ETIMEDOUT error *together with* the SIGTERM kill (`exRealTimeoutSyncRun`),
and the source's spawn-error check fires first: the outcome carries the
error and `approved = false` and no feedback is routed, but `timedOut`
is left `false`, against the claim; the SIGTERM branch that would set
`timedOut = true` is reached only by an external kill that sets no
spawn error (`exExternalKillSyncRun`), not by a timeout. -/
theorem C6_sync_timeout_divergence :
    ((runCritic 60000 exTimeoutRun).timedOut = true
      ∧ (runCritic 60000 exTimeoutRun).error = some (timeoutErrText 60000)
      ∧ (runCritic 60000 exTimeoutRun).approved = false
      ∧ (triggerCritic exCfg1 exRt0 (runCritic 60000 exTimeoutRun)).2
          = [Emit.reviewRun, Emit.displayMessage "critic-review" "(Critic timed out)"])
    ∧ ((runCriticSync exRealTimeoutSyncRun).timedOut = false
      ∧ (runCriticSync exRealTimeoutSyncRun).error = some "spawnSync pi ETIMEDOUT"
      ∧ (runCriticSync exRealTimeoutSyncRun).approved = false
      ∧ (triggerCritic exCfg1 exRt0 (runCriticSync exRealTimeoutSyncRun)).2
          = [Emit.reviewRun, Emit.displayMessage "critic-review" ""])
    ∧ ((runCriticSync exExternalKillSyncRun).timedOut = true
      ∧ (runCriticSync exExternalKillSyncRun).error = some "Critic timed out") := by
  decide

/-- C7 counterexample: on a subprocess launch failure the asynchronous
runner returns an outcome whose error field is set but whose critique is
the empty string — not a human-readable placeholder — so the claim that
all three failure classes produce a placeholder critique fails. -/
theorem C7_counterexample :
    (runCritic 60000 exSpawnFailRun).error = some "spawn pi ENOENT"
    ∧ (runCritic 60000 exSpawnFailRun).critique = "" := by
  decide

/-- C7 (amended): neither runner ever throws — both are total functions
of the subprocess behaviour. For the asynchronous `runCritic`:
subprocess launch failure, non-zero exit and completely empty output
each produce an outcome with the error field set; the placeholder
critique is produced in the empty-output and caught-exception cases
(`"(No response from critic)"`, `"(Critic error: ...)"`), while launch
failure and non-zero exit leave the critique as whatever assistant text
was parsed (empty when none). The synchronous `runCriticSync` sets the
error field only on spawn failure and caught exceptions (the latter with
the `"(Critic error: ...)"` placeholder): it never inspects the exit
status and has no empty-output check, so completely empty output returns
with the error unset, an empty critique, `approved = false` and the
`NEEDS_WORK` default status. -/
theorem C7_runner_error_outcomes (t : Nat) (sr : SubprocRun) (srs : SubprocSyncRun) :
    (∀ m, sr.tmpFileError = some m →
      runCritic t sr
        = { critique := "(Critic error: " ++ m ++ ")", approved := false,
            status := none, error := some m, timedOut := false })
    ∧ (sr.tmpFileError = none → sr.timedOut = false → sr.aborted = false →
        ((sr.procError.isSome → (runCritic t sr).error.isSome)
        ∧ (sr.procError = none → sr.exitCode ≠ 0 → (runCritic t sr).error.isSome)
        ∧ (sr.lines = [] → sr.procError = none → sr.exitCode = 0 →
            (runCritic t sr).error = some "Critic returned empty response"
            ∧ (runCritic t sr).critique = "(No response from critic)")))
    ∧ (∀ m, srs.tmpFileError = none → srs.spawnError = some m →
        (runCriticSync srs).error = some m ∧ (runCriticSync srs).critique = "")
    ∧ (∀ m, srs.tmpFileError = some m →
        (runCriticSync srs).error = some m
        ∧ (runCriticSync srs).critique = "(Critic error: " ++ m ++ ")")
    ∧ (srs.tmpFileError = none → srs.spawnError = none → srs.signal = none →
        srs.lines = [] →
        (runCriticSync srs).error = none ∧ (runCriticSync srs).critique = ""
        ∧ (runCriticSync srs).approved = false
        ∧ (runCriticSync srs).status = some "NEEDS_WORK") := by
  refine ⟨fun m hm => by simp [runCritic, hm], fun h1 ht ha => ⟨?_, ?_, ?_⟩,
    fun m h3 h4 => by simp [runCriticSync, h3, h4], fun m hm => by simp [runCriticSync, hm],
    fun h1 h2 h3 h4 => by
      simp [runCriticSync, h1, h2, h3, h4, syncCritiqueOfLines]
      decide⟩
  · intro hpe
    obtain ⟨m, hm⟩ := Option.isSome_iff_exists.mp hpe
    cases hq : (m == "")
    · simp [runCritic, h1, ht, ha, hm, jsTruthyS, hq]
    · simp [runCritic, h1, ht, ha, hm, jsTruthyS, hq, jsTruthyS_exitErr]
      split <;> simp
  · intro hpe hne
    have hbne : (sr.exitCode != 0) = true := by simpa using hne
    cases he1 : lastErrorEvent sr.lines with
    | none =>
      simp [runCritic, h1, ht, ha, hpe, he1, hbne, jsTruthyS]
      split <;> simp
    | some s =>
      cases hq : (s == "")
      · simp [runCritic, h1, ht, ha, hpe, he1, hbne, jsTruthyS, hq]
      · simp [runCritic, h1, ht, ha, hpe, he1, hbne, jsTruthyS, hq]
        split <;> simp
  · intro hl hpe hex
    simp [runCritic, h1, ht, ha, hl, hpe, hex, lastErrorEvent, collectMessages,
      lastAssistantFirstText, jsTruthyS]
    decide

/-- Witness for C7 (amended) on concrete empty-output runs: the
asynchronous runner sets the error and the placeholder critique, the
synchronous runner returns with the error unset and an empty critique. -/
theorem C7_runner_error_outcomes_witness :
    ((runCritic 60000 exEmptyRun).error = some "Critic returned empty response"
      ∧ (runCritic 60000 exEmptyRun).critique = "(No response from critic)")
    ∧ ((runCriticSync exEmptySyncRun).error = none
      ∧ (runCriticSync exEmptySyncRun).critique = "") := by
  have h := C7_runner_error_outcomes 60000 exEmptyRun exEmptySyncRun
  exact ⟨(h.2.1 rfl rfl rfl).2.2 rfl rfl rfl,
    ⟨(h.2.2.2.2 rfl rfl rfl rfl).1, (h.2.2.2.2 rfl rfl rfl rfl).2.1⟩⟩

end Critic


